import Mathlib

/-!
Verification of the TaskNotes-Alfred quick-add parser (`nlp_task_create.py`)
and the task-cache controller (`cache.py`, `list_or_parse_task.py`).

The Python code is embedded shallowly:
* `datetime.date` becomes the `Date` structure below; construction and
  day-arithmetic that can raise in CPython (year outside 1..9999) return
  `Except Unit Date`, mirroring the `ValueError`/`OverflowError` paths.
* String handling uses explicit `List Char` primitives mirroring the
  Python `str` methods used by the parser (`strip`, `casefold`, `split`,
  slicing, the three regexes).  `casefold` is modelled as ASCII
  lowercasing, and `str.isdigit`/whitespace as their ASCII fragments.
* The parser itself threads `Except Unit` so that any date construction
  escaping `_safe_date` propagates, exactly as an uncaught exception does.
-/

/-! ## Calendar arithmetic (embedding of `datetime.date` and `calendar`) -/

def isLeap (y : Nat) : Bool := y % 4 == 0 && (y % 100 != 0 || y % 400 == 0)

def daysInMonth (y m : Nat) : Nat :=
  match m with
  | 1 => 31
  | 2 => if isLeap y then 29 else 28
  | 3 => 31
  | 4 => 30
  | 5 => 31
  | 6 => 30
  | 7 => 31
  | 8 => 31
  | 9 => 30
  | 10 => 31
  | 11 => 30
  | 12 => 31
  | _ => 0

def daysBeforeMonth (y m : Nat) : Nat :=
  let l := if isLeap y then 1 else 0
  match m with
  | 1 => 0
  | 2 => 31
  | 3 => 59 + l
  | 4 => 90 + l
  | 5 => 120 + l
  | 6 => 151 + l
  | 7 => 181 + l
  | 8 => 212 + l
  | 9 => 243 + l
  | 10 => 273 + l
  | 11 => 304 + l
  | 12 => 334 + l
  | _ => 0

def daysBeforeYear (y : Nat) : Nat :=
  365 * (y - 1) + ((y - 1) / 4 - (y - 1) / 100) + (y - 1) / 400

structure Date where
  year : Nat
  month : Nat
  day : Nat
deriving DecidableEq, Repr

def Date.toOrdinal (d : Date) : Nat :=
  daysBeforeYear d.year + daysBeforeMonth d.year d.month + d.day

def Date.weekday (d : Date) : Nat := (d.toOrdinal + 6) % 7

/-- Ordinal of `date.max = 9999-12-31`. -/
def dateMaxOrdinal : Nat := 3652059

/-- `datetime.date(y, m, d)`: validates ranges, raising `ValueError` otherwise. -/
def mkDate (y m d : Nat) : Except Unit Date :=
  if 1 ≤ y ∧ y ≤ 9999 ∧ 1 ≤ m ∧ m ≤ 12 ∧ 1 ≤ d ∧ d ≤ daysInMonth y m then
    .ok ⟨y, m, d⟩
  else .error ()

/-- `_safe_date`: `date(y, m, d)` with the exception caught to `None`. -/
def safe_date (y m d : Nat) : Option Date := (mkDate y m d).toOption

def findMonthAux (y : Nat) : Nat → Nat → Nat → Nat × Nat
  | 0, m, r => (m, r)
  | fuel + 1, m, r =>
    if m ≥ 12 || r < daysInMonth y m then (m, r)
    else findMonthAux y fuel (m + 1) (r - daysInMonth y m)

/-- Inverse of `toOrdinal` for ordinals in `1..dateMaxOrdinal`
(the `_ord2ymd` algorithm of `datetime`, with a linear month scan). -/
def fromOrdinal (n0 : Nat) : Date :=
  let n := n0 - 1
  let n400 := n / 146097
  let r400 := n % 146097
  let n100 := r400 / 36524
  let r100 := r400 % 36524
  let n4 := r100 / 1461
  let r4 := r100 % 1461
  let n1 := r4 / 365
  let r1 := r4 % 365
  let year := n400 * 400 + n100 * 100 + n4 * 4 + n1 + 1
  if n1 = 4 ∨ n100 = 4 then ⟨year - 1, 12, 31⟩
  else
    let p := findMonthAux year 12 1 r1
    ⟨year, p.1, p.2 + 1⟩

/-- `date + timedelta(days = k)`; raises (`.error`) when the result leaves
the `datetime` range, as CPython's `OverflowError` does. -/
def addDays (d : Date) (k : Int) : Except Unit Date :=
  let o : Int := (d.toOrdinal : Int) + k
  if 1 ≤ o ∧ o ≤ (dateMaxOrdinal : Int) then .ok (fromOrdinal o.toNat) else .error ()

/-- `calendar.monthrange(y, m)[0]`: weekday of the first day of the month.
`calendar.weekday` substitutes `2000 + y % 400` when `y` is outside the
`datetime` year range, so this never raises for months 1..12. -/
def monthFirstWeekday (y m : Nat) : Nat :=
  let y' := if 1 ≤ y ∧ y ≤ 9999 then y else 2000 + y % 400
  Date.weekday ⟨y', m, 1⟩

/-- `_add_months`: month shift with day clamped to the target month length.
All call sites pass a non-negative count.  The final `date(...)` call is
unguarded in the source, hence the `Except`. -/
def add_months (base : Date) (months : Nat) : Except Unit Date :=
  let total := base.year * 12 + (base.month - 1) + months
  let ny := total / 12
  let nm := total % 12 + 1
  let nd := min base.day (daysInMonth ny nm)
  mkDate ny nm nd

/-- `_add_years`: year shift with Feb-29 clamped; again the final
`date(...)` call is unguarded in the source. -/
def add_years (base : Date) (years : Nat) : Except Unit Date :=
  let ny := base.year + years
  let nd := min base.day (daysInMonth ny base.month)
  mkDate ny base.month nd

/-- `_next_weekday`. -/
def next_weekday (today : Date) (target : Nat) (forceNextWeek : Bool) : Except Unit Date :=
  let delta := (7 + target - today.weekday) % 7
  let delta := if forceNextWeek && delta == 0 then 7 else delta
  addDays today delta

/-- `_prev_weekday`. -/
def prev_weekday (today : Date) (target : Nat) : Except Unit Date :=
  let delta := (7 + today.weekday - target) % 7
  let delta := if delta == 0 then 7 else delta
  addDays today (-(delta : Int))

/-- `_nth_weekday_of_month`: `ordinal` is 1..5 or -1 for last. -/
def nth_weekday_of_month (y m weekday : Nat) (ordinal : Int) : Except Unit (Option Date) :=
  let first_wd := monthFirstWeekday y m
  let dim := daysInMonth y m
  if ordinal = -1 then do
    let last_wd := (first_wd + (dim - 1)) % 7
    let delta := ((last_wd : Int) - (weekday : Int)) % 7
    let day := (dim : Int) - delta
    let d ← mkDate y m day.toNat
    .ok (some d)
  else if ordinal < 1 then .ok none
  else
    let delta := ((weekday : Int) - (first_wd : Int)) % 7
    let day := 1 + delta + (ordinal - 1) * 7
    if day > (dim : Int) then .ok none
    else do
      let d ← mkDate y m day.toNat
      .ok (some d)

/-- Python `date` comparison (chronological for valid dates). -/
def dateLt (a b : Date) : Bool :=
  a.year < b.year || (a.year == b.year &&
    (a.month < b.month || (a.month == b.month && a.day < b.day)))

def natDigitsAux : Nat → Nat → List Char
  | 0, _ => []
  | fuel + 1, n => if n = 0 then [] else natDigitsAux fuel (n / 10) ++ [Char.ofNat (48 + n % 10)]

def natToStr (n : Nat) : String := if n = 0 then "0" else ⟨natDigitsAux (n + 1) n⟩

def padNat (w n : Nat) : String :=
  ⟨List.replicate (w - (natToStr n).data.length) '0' ++ (natToStr n).data⟩

/-- `date.isoformat()`: zero-padded `YYYY-MM-DD`. -/
def isoStr (d : Date) : String := padNat 4 d.year ++ "-" ++ padNat 2 d.month ++ "-" ++ padNat 2 d.day

/-! ## String primitives (ASCII fragments of the `str` methods used) -/

def isPySpace (c : Char) : Bool :=
  c = ' ' || c = '\t' || c = '\n' || c = '\r' || c = '\x0b' || c = '\x0c'

def isStripPunct (c : Char) : Bool := c = ',' || c = '.' || c = ';'

def stripEnds (p : Char → Bool) (l : List Char) : List Char :=
  List.rdropWhile p (List.dropWhile p l)

/-- `str.strip()`. -/
def pyStripStr (s : String) : String := ⟨stripEnds isPySpace s.data⟩

/-- `_clean_tok`: `s.strip().strip(",.;")`. -/
def cleanTok (s : String) : String :=
  ⟨stripEnds isStripPunct (stripEnds isPySpace s.data)⟩

/-- `str.casefold()` (ASCII lowercasing). -/
def pyCasefold (s : String) : String := ⟨s.data.map Char.toLower⟩

def cleanCase (s : String) : String := pyCasefold (cleanTok s)

def isDigitChar (c : Char) : Bool := '0' ≤ c && c ≤ '9'

/-- `str.isdigit()`. -/
def pyIsDigit (s : String) : Bool := !s.data.isEmpty && s.data.all isDigitChar

def strLen (s : String) : Nat := s.data.length

/-- `s[n:]`. -/
def strDrop (s : String) (n : Nat) : String := ⟨s.data.drop n⟩

def pyStartsWith (s pre : String) : Bool := pre.data.isPrefixOf s.data

/-- `re.sub(r"[\.,;:]+$", "", s)`. -/
def rstripPunctColon (s : String) : String :=
  ⟨List.rdropWhile (fun c => c = '.' || c = ',' || c = ';' || c = ':') s.data⟩

/-- `s.rstrip(",")`. -/
def rstripComma (s : String) : String := ⟨List.rdropWhile (fun c => c = ',') s.data⟩

def digitsToNat (cs : List Char) : Nat := cs.foldl (fun a c => a * 10 + (c.toNat - 48)) 0

def strToNatD (s : String) : Nat := digitsToNat s.data

def joinSpace : List String → String
  | [] => ""
  | [a] => a
  | a :: rest => a ++ " " ++ joinSpace rest

def splitWSAux : List Char → List Char → List (List Char)
  | [], acc => if acc.isEmpty then [] else [acc.reverse]
  | c :: cs, acc =>
    if isPySpace c then
      if acc.isEmpty then splitWSAux cs [] else acc.reverse :: splitWSAux cs []
    else splitWSAux cs (c :: acc)

/-- `str.split()` (whitespace split, empties dropped). -/
def splitWS (s : String) : List String := (splitWSAux s.data []).map String.mk

def splitCharAux (sep : Char) : List Char → List Char → List (List Char)
  | [], acc => [acc.reverse]
  | c :: cs, acc =>
    if c = sep then acc.reverse :: splitCharAux sep cs [] else splitCharAux sep cs (c :: acc)

/-- `_RE_ISO`: `^(\d{4})-(\d{2})-(\d{2})$`. -/
def matchISO (s : String) : Option (Nat × Nat × Nat) :=
  match s.data with
  | [y1, y2, y3, y4, '-', m1, m2, '-', d1, d2] =>
    if [y1, y2, y3, y4, m1, m2, d1, d2].all isDigitChar then
      some (digitsToNat [y1, y2, y3, y4], digitsToNat [m1, m2], digitsToNat [d1, d2])
    else none
  | _ => none

/-- `_RE_US`: `^(\d{1,2})/(\d{1,2})(?:/(\d{2,4}))?$`, via split on `/`. -/
def matchUS (s : String) : Option (Nat × Nat × Option Nat) :=
  match splitCharAux '/' s.data [] with
  | [a, b] =>
    if a.all isDigitChar && decide (1 ≤ a.length) && decide (a.length ≤ 2) &&
       b.all isDigitChar && decide (1 ≤ b.length) && decide (b.length ≤ 2) then
      some (digitsToNat a, digitsToNat b, none)
    else none
  | [a, b, c] =>
    if a.all isDigitChar && decide (1 ≤ a.length) && decide (a.length ≤ 2) &&
       b.all isDigitChar && decide (1 ≤ b.length) && decide (b.length ≤ 2) &&
       c.all isDigitChar && decide (2 ≤ c.length) && decide (c.length ≤ 4) then
      some (digitsToNat a, digitsToNat b, some (digitsToNat c))
    else none
  | _ => none

/-- `_RE_DAY`: `^(\d{1,2})(?:st|nd|rd|th)?[,]?$` (applied to a casefolded token). -/
def matchDay (s : String) : Option Nat :=
  let cs := s.data
  let ds := cs.takeWhile isDigitChar
  let rest := cs.drop ds.length
  if decide (1 ≤ ds.length) && decide (ds.length ≤ 2) then
    let suffixOk :=
      match rest with
      | [] => true
      | [','] => true
      | ['s', 't'] => true
      | ['n', 'd'] => true
      | ['r', 'd'] => true
      | ['t', 'h'] => true
      | ['s', 't', ','] => true
      | ['n', 'd', ','] => true
      | ['r', 'd', ','] => true
      | ['t', 'h', ','] => true
      | _ => false
    if suffixOk then some (digitsToNat ds) else none
  else none

/-! ## Token tables (`_WEEKDAYS`, `_MONTHS`, `_ORDINALS`, `_WORD_NUMS`) -/

def weekdaysMap : String → Option Nat
  | "mon" | "monday" => some 0
  | "tue" | "tues" | "tuesday" => some 1
  | "wed" | "wednesday" => some 2
  | "thu" | "thur" | "thurs" | "thursday" => some 3
  | "fri" | "friday" => some 4
  | "sat" | "saturday" => some 5
  | "sun" | "sunday" => some 6
  | _ => none

def monthsMap : String → Option Nat
  | "jan" | "january" => some 1
  | "feb" | "february" => some 2
  | "mar" | "march" => some 3
  | "apr" | "april" => some 4
  | "may" => some 5
  | "jun" | "june" => some 6
  | "jul" | "july" => some 7
  | "aug" | "august" => some 8
  | "sep" | "sept" | "september" => some 9
  | "oct" | "october" => some 10
  | "nov" | "november" => some 11
  | "dec" | "december" => some 12
  | _ => none

def ordinalsMap : String → Option Int
  | "1st" | "first" => some 1
  | "2nd" | "second" => some 2
  | "3rd" | "third" => some 3
  | "4th" | "fourth" => some 4
  | "5th" | "fifth" => some 5
  | "last" => some (-1)
  | _ => none

def wordNumsMap : String → Option Nat
  | "a" | "an" | "one" => some 1
  | "two" => some 2
  | "three" => some 3
  | "four" => some 4
  | "five" => some 5
  | "six" => some 6
  | "seven" => some 7
  | "eight" => some 8
  | "nine" => some 9
  | "ten" => some 10
  | "eleven" => some 11
  | "twelve" => some 12
  | _ => none

/-- `_parse_int_or_wordnum`. -/
def parse_int_or_wordnum (tok : String) : Option Nat :=
  let t := cleanCase tok
  if pyIsDigit t then some (strToNatD t) else wordNumsMap t

/-- `_parse_unit`. -/
def parse_unit (tok : String) : Option String :=
  match cleanCase tok with
  | "day" | "days" => some "days"
  | "week" | "weeks" => some "weeks"
  | "month" | "months" => some "months"
  | "year" | "years" => some "years"
  | _ => none

/-- `_apply_relative_offset`. -/
def apply_relative_offset (today : Date) (n : Nat) (unit : String) : Except Unit Date :=
  if unit = "days" then addDays today (n : Int)
  else if unit = "weeks" then addDays today ((7 * n : Nat) : Int)
  else if unit = "months" then add_months today n
  else if unit = "years" then add_years today n
  else .ok today

/-- Python truthiness of an `Optional[str]`. -/
def optTruthy : Option String → Bool
  | none => false
  | some s => !s.data.isEmpty

/-! ## Phrase matchers (suffix-list form of the `(tokens, i)` indexing) -/

/-- `_parse_relative_phrase`: `in/after <N> <unit>`, `<N> <unit> from today|now`. -/
def parse_relative_phrase (ts : List String) (today : Date) : Except Unit (Option String × Nat) :=
  let b1 : Option (Nat × String) :=
    match ts with
    | t0 :: t1 :: t2 :: _ =>
      if cleanCase t0 = "in" ∨ cleanCase t0 = "after" then
        match parse_int_or_wordnum t1, parse_unit t2 with
        | some n, some u => some (n, u)
        | _, _ => none
      else none
    | _ => none
  match b1 with
  | some p => do
    let d ← apply_relative_offset today p.1 p.2
    .ok (some (isoStr d), 3)
  | none =>
    match ts with
    | t0 :: t1 :: t2 :: t3 :: _ =>
      match parse_int_or_wordnum t0, parse_unit t1 with
      | some n, some u =>
        if cleanCase t2 = "from" ∧ (cleanCase t3 = "today" ∨ cleanCase t3 = "now") then do
          let d ← apply_relative_offset today n u
          .ok (some (isoStr d), 4)
        else .ok (none, 0)
      | _, _ => .ok (none, 0)
    | _ => .ok (none, 0)

/-- `_parse_nth_weekday_phrase`: `<ordinal> <weekday> of <month> [year]`. -/
def parse_nth_weekday_phrase (ts : List String) (today : Date) (allow_past : Bool) :
    Except Unit (Option String × Nat) :=
  match ts with
  | ord_t :: wd_t :: of_t :: mon_t :: rest4 =>
    match ordinalsMap (cleanCase ord_t), weekdaysMap (cleanCase wd_t), monthsMap (cleanCase mon_t) with
    | some ordinal, some weekday, some month =>
      if cleanCase of_t = "of" then
        let yc : Option Nat × Nat :=
          match rest4 with
          | ytok0 :: _ =>
            let ytok := cleanTok ytok0
            if pyIsDigit ytok && strLen ytok == 4 then (some (strToNatD ytok), 5) else (none, 4)
          | [] => (none, 4)
        let y := yc.1.getD today.year
        do
          let d? ← nth_weekday_of_month y month weekday ordinal
          match d? with
          | none => .ok (none, 0)
          | some d =>
            if yc.1.isNone ∧ dateLt d today ∧ allow_past = false then do
              let d2? ← nth_weekday_of_month (today.year + 1) month weekday ordinal
              match d2? with
              | some d2 => .ok (some (isoStr d2), yc.2)
              | none => .ok (some (isoStr d), yc.2)
            else .ok (some (isoStr d), yc.2)
      else .ok (none, 0)
    | _, _, _ => .ok (none, 0)
  | _ => .ok (none, 0)

/-- Month-name branch of `_parse_date_phrase`: `jan 2 [2026]`. -/
def dpMonthName (t0 : String) (rest : List String) (today : Date) (allow_past : Bool) :
    Except Unit (Option String × Nat) :=
  match monthsMap (pyCasefold (cleanTok t0)), rest with
  | some mnum, t1 :: rest2 =>
    let day_tok := cleanTok t1
    match matchDay (pyCasefold day_tok) with
    | some day_num =>
      let yc : Option Nat × Nat :=
        match rest2 with
        | t2 :: _ =>
          let ytok := rstripComma (cleanTok t2)
          if pyIsDigit ytok && (strLen ytok == 2 || strLen ytok == 4) then
            let y0 := strToNatD ytok
            (some (if y0 < 100 then y0 + 2000 else y0), 3)
          else (none, 2)
        | [] => (none, 2)
      let year := (yc.1).getD today.year
      let d := safe_date year mnum day_num
      let d :=
        match d with
        | some dd =>
          if yc.1.isNone ∧ dateLt dd today ∧ allow_past = false then
            match safe_date (today.year + 1) mnum day_num with
            | some d2 => some d2
            | none => some dd
          else some dd
        | none => none
      match d with
      | some dd => .ok (some (isoStr dd), yc.2)
      | none => .ok (none, 0)
    | none => .ok (none, 0)
  | _, _ => .ok (none, 0)

/-- US-numeric branch of `_parse_date_phrase`: `M/D` or `M/D/YY[YY]`. -/
def dpUS (t0 : String) (rest : List String) (today : Date) (allow_past : Bool) :
    Except Unit (Option String × Nat) :=
  match matchUS (cleanTok t0) with
  | some (mo, da, y_raw) =>
    let y :=
      match y_raw with
      | some yv => if yv < 100 then yv + 2000 else yv
      | none => today.year
    let d := safe_date y mo da
    let d :=
      match d with
      | some dd =>
        if y_raw.isNone ∧ dateLt dd today ∧ allow_past = false then
          match safe_date (today.year + 1) mo da with
          | some d2 => some d2
          | none => some dd
        else some dd
      | none => none
    match d with
    | some dd => .ok (some (isoStr dd), 1)
    | none => .ok (none, 0)
  | none => dpMonthName t0 rest today allow_past

/-- ISO branch of `_parse_date_phrase`. -/
def dpISO (t0 : String) (rest : List String) (today : Date) (allow_past : Bool) :
    Except Unit (Option String × Nat) :=
  match matchISO (cleanTok t0) with
  | some (y, mo, da) =>
    match safe_date y mo da with
    | some d => .ok (some (isoStr d), 1)
    | none => .ok (none, 0)
  | none => dpUS t0 rest today allow_past

/-- Bare-weekday branch of `_parse_date_phrase`. -/
def dpWeekday (t0 : String) (rest : List String) (today : Date) (allow_past : Bool) :
    Except Unit (Option String × Nat) :=
  match weekdaysMap (pyCasefold (cleanTok t0)) with
  | some w => do
    let d ← next_weekday today w false
    .ok (some (isoStr d), 1)
  | none => dpISO t0 rest today allow_past

/-- `last <weekday>` branch of `_parse_date_phrase`. -/
def dpLast (t0 : String) (rest : List String) (today : Date) (allow_past : Bool) :
    Except Unit (Option String × Nat) :=
  if pyCasefold (cleanTok t0) = "last" then
    match rest with
    | t1 :: _ =>
      match weekdaysMap (pyCasefold (cleanTok t1)) with
      | some w => do
        let d ← prev_weekday today w
        .ok (some (isoStr d), 2)
      | none => dpWeekday t0 rest today allow_past
    | [] => dpWeekday t0 rest today allow_past
  else dpWeekday t0 rest today allow_past

/-- `next <weekday|week|month>` branch of `_parse_date_phrase`. -/
def dpNext (t0 : String) (rest : List String) (today : Date) (allow_past : Bool) :
    Except Unit (Option String × Nat) :=
  if pyCasefold (cleanTok t0) = "next" then
    match rest with
    | t1 :: _ =>
      let low1 := pyCasefold (cleanTok t1)
      match weekdaysMap low1 with
      | some w => do
        let d ← next_weekday today w true
        .ok (some (isoStr d), 2)
      | none =>
        if low1 = "week" then do
          let d ← addDays today 7
          .ok (some (isoStr d), 2)
        else if low1 = "month" then do
          let d ← add_months today 1
          .ok (some (isoStr d), 2)
        else dpLast t0 rest today allow_past
    | [] => dpLast t0 rest today allow_past
  else dpLast t0 rest today allow_past

/-- Literal `today/yesterday/tomorrow` branch of `_parse_date_phrase`. -/
def dpLiterals (t0 : String) (rest : List String) (today : Date) (allow_past : Bool) :
    Except Unit (Option String × Nat) :=
  let low0 := pyCasefold (cleanTok t0)
  if low0 = "today" ∨ low0 = "tod" then .ok (some (isoStr today), 1)
  else if low0 = "yesterday" ∨ low0 = "yest" then do
    let d ← addDays today (-1)
    .ok (some (isoStr d), 1)
  else if low0 = "tomorrow" ∨ low0 = "tmr" ∨ low0 = "tom" then do
    let d ← addDays today 1
    .ok (some (isoStr d), 1)
  else dpNext t0 rest today allow_past

/-- `_parse_date_phrase(tokens, i, today, allow_past)`, with `ts` the token
suffix starting at `i`.  Returns `(iso_date?, consumed)`. -/
def parse_date_phrase (ts : List String) (today : Date) (allow_past : Bool) :
    Except Unit (Option String × Nat) :=
  match ts with
  | [] => .ok (none, 0)
  | t0 :: rest => do
    let r ← parse_relative_phrase ts today
    if optTruthy r.1 && r.2 != 0 then .ok r
    else do
      let r ← parse_nth_weekday_phrase ts today allow_past
      if optTruthy r.1 && r.2 != 0 then .ok r
      else dpLiterals t0 rest today allow_past

/-! ## Create-input orchestrator (`parse_create_input`) -/

structure ParsedCreate where
  raw : String
  title : String
  details : Option String := none
  scheduled : Option String := none
  due : Option String := none
  priority : Option String := none
  tags : List String := []
  projects : List String := []
  warnings : List String := []
deriving DecidableEq, Repr

/-- Mutable accumulator of the single left-to-right pass. -/
structure ParseAcc where
  tags : List String := []
  projects : List String := []
  warnings : List String := []
  scheduled : Option String := none
  due : Option String := none
  priority : Option String := none
  keep : List String := []
deriving DecidableEq, Repr

/-- The `priority_map` lookup. -/
def prioVal : String → Option String
  | "p1" => some "High"
  | "p2" => some "Medium"
  | "p3" => some "Low"
  | "!!!" => some "High"
  | "!!" => some "Medium"
  | "!" => some "Low"
  | _ => none

/-- Inner scan of the project branch: collects continuation tokens until the
next metadata token or date phrase; returns the parts kept and the number of
tokens consumed. -/
def projScan (today : Date) : List String → Except Unit (List String × Nat)
  | [] => .ok ([], 0)
  | nxt :: rest =>
    let low_nxt := cleanCase nxt
    if pyStartsWith nxt "#" || pyStartsWith nxt "+" || pyStartsWith nxt "@" then .ok ([], 0)
    else if low_nxt = "due" ∨ low_nxt = "by" ∨ low_nxt = "do" ∨ low_nxt = "sch" then .ok ([], 0)
    else if (prioVal low_nxt).isSome then .ok ([], 0)
    else if pyStartsWith low_nxt "due:" || pyStartsWith low_nxt "sch:" then .ok ([], 0)
    else do
      let r ← parse_date_phrase (nxt :: rest) today true
      if optTruthy r.1 && r.2 > 0 then .ok ([], 0)
      else do
        let part := rstripPunctColon (pyStripStr nxt)
        let pr ← projScan today rest
        .ok ((if part = "" then pr.1 else part :: pr.1), pr.2 + 1)

/-- Bare-date branch (last resort before keeping the token as title text):
matched with `allow_past = false` and assigned to `scheduled`. -/
def stepBare (today : Date) (tok : String) (rest : List String) (acc : ParseAcc) :
    Except Unit (ParseAcc × List String) := do
  let r ← parse_date_phrase (tok :: rest) today false
  if optTruthy r.1 && r.2 > 0 then
    .ok ({ acc with scheduled := r.1 }, (tok :: rest).drop r.2)
  else
    .ok ({ acc with keep := acc.keep ++ [tok] }, rest)

/-- `do/sch/on/start/scheduled <date phrase>` branch. -/
def stepSchKw (today : Date) (tok : String) (rest : List String) (acc : ParseAcc) :
    Except Unit (ParseAcc × List String) :=
  let low := cleanCase tok
  if low = "do" ∨ low = "sch" ∨ low = "on" ∨ low = "start" ∨ low = "scheduled" then do
    let r ← parse_date_phrase rest today true
    if optTruthy r.1 then .ok ({ acc with scheduled := r.1 }, rest.drop r.2)
    else stepBare today tok rest acc
  else stepBare today tok rest acc

/-- `sch:<date>` branch (single-token date). -/
def stepSchColon (today : Date) (tok : String) (rest : List String) (acc : ParseAcc) :
    Except Unit (ParseAcc × List String) :=
  if pyStartsWith (cleanCase tok) "sch:" then
    let r4 := pyStripStr (strDrop tok 4)
    if r4 ≠ "" then do
      let r ← parse_date_phrase [r4] today true
      if optTruthy r.1 then .ok ({ acc with scheduled := r.1 }, rest)
      else stepSchKw today tok rest acc
    else stepSchKw today tok rest acc
  else stepSchKw today tok rest acc

/-- `by <date phrase>` branch (assigns `due`). -/
def stepBy (today : Date) (tok : String) (rest : List String) (acc : ParseAcc) :
    Except Unit (ParseAcc × List String) :=
  if cleanCase tok = "by" then do
    let r ← parse_date_phrase rest today true
    if optTruthy r.1 then .ok ({ acc with due := r.1 }, rest.drop r.2)
    else stepSchColon today tok rest acc
  else stepSchColon today tok rest acc

/-- `due <date phrase>` branch. -/
def stepDue (today : Date) (tok : String) (rest : List String) (acc : ParseAcc) :
    Except Unit (ParseAcc × List String) :=
  if cleanCase tok = "due" then do
    let r ← parse_date_phrase rest today true
    if optTruthy r.1 then .ok ({ acc with due := r.1 }, rest.drop r.2)
    else stepBy today tok rest acc
  else stepBy today tok rest acc

/-- `due:<date>` branch (single-token date). -/
def stepDueColon (today : Date) (tok : String) (rest : List String) (acc : ParseAcc) :
    Except Unit (ParseAcc × List String) :=
  if pyStartsWith (cleanCase tok) "due:" then
    let r4 := pyStripStr (strDrop tok 4)
    if r4 ≠ "" then do
      let r ← parse_date_phrase [r4] today true
      if optTruthy r.1 then .ok ({ acc with due := r.1 }, rest)
      else stepDue today tok rest acc
    else stepDue today tok rest acc
  else stepDue today tok rest acc

/-- One iteration of the `while i < len(tokens)` loop of `parse_create_input`:
processes `tok` and returns the updated accumulator and remaining tokens. -/
def parseStep (today : Date) (tok : String) (rest : List String) (acc : ParseAcc) :
    Except Unit (ParseAcc × List String) :=
  let low := cleanCase tok
  match prioVal low with
  | some p => .ok ({ acc with priority := some p }, rest)
  | none =>
    if pyStartsWith tok "#" && decide (strLen tok > 1) then
      let tag := rstripPunctColon (pyStripStr (strDrop tok 1))
      .ok ({ acc with tags := acc.tags ++ (if tag = "" then [] else [tag]) }, rest)
    else if pyStartsWith tok "+" && decide (strLen tok > 1) then
      let first := rstripPunctColon (pyStripStr (strDrop tok 1))
      if first = "" then .ok (acc, rest)
      else do
        let pr ← projScan today rest
        .ok ({ acc with projects := acc.projects ++ [pyStripStr (joinSpace (first :: pr.1))] },
             rest.drop pr.2)
    else if pyStartsWith tok "@" && decide (strLen tok > 1) then
      .ok ({ acc with warnings := acc.warnings ++ ["Ignored " ++ tok ++ " (contexts disabled)"] },
           rest)
    else stepDueColon today tok rest acc

/-- The token loop.  Every iteration consumes at least one token, so any
`fuel ≥ tokens.length` gives the loop's exact behaviour. -/
def parseLoop (today : Date) : Nat → List String → ParseAcc → Except Unit ParseAcc
  | 0, _, acc => .ok acc
  | _ + 1, [], acc => .ok acc
  | fuel + 1, tok :: rest, acc => do
    let s ← parseStep today tok rest acc
    parseLoop today fuel s.2 s.1

/-- `re.sub(r" *\\n *", "\n", d)`: literal backslash-n (with surrounding
spaces) becomes a newline. -/
def normD1 : Nat → List Char → List Char
  | 0, l => l
  | fuel + 1, l =>
    match l with
    | [] => []
    | c :: cs =>
      match l.dropWhile (· = ' ') with
      | '\\' :: 'n' :: r2 => '\n' :: normD1 fuel (r2.dropWhile (· = ' '))
      | _ => c :: normD1 fuel cs

/-- `re.sub(r" {2,}", "\n", d)`: runs of two or more spaces become a newline. -/
def normD2 : Nat → List Char → List Char
  | 0, l => l
  | _ + 1, [] => []
  | fuel + 1, c :: cs =>
    if c = ' ' && ((c :: cs).takeWhile (· = ' ')).length ≥ 2 then
      '\n' :: normD2 fuel ((c :: cs).dropWhile (· = ' '))
    else c :: normD2 fuel cs

def normalizeDetails (s : String) : String :=
  let l1 := normD1 s.data.length s.data
  ⟨normD2 l1.length l1⟩

/-- First occurrence of `//`, splitting the raw string (`raw.split("//", 1)`). -/
def splitTwoSlash : Nat → List Char → Option (List Char × List Char)
  | 0, _ => none
  | _ + 1, [] => none
  | _ + 1, '/' :: '/' :: rest => some ([], rest)
  | fuel + 1, c :: cs => (splitTwoSlash fuel cs).map (fun p => (c :: p.1, p.2))

/-- Python `dict.fromkeys` de-duplication: keeps first occurrences in order. -/
def pyDedupAux (seen : List String) : List String → List String
  | [] => []
  | a :: l => if seen.contains a then pyDedupAux seen l else a :: pyDedupAux (seen ++ [a]) l

def pyDedup (l : List String) : List String := pyDedupAux [] l

/-- Body of `parse_create_input` after the initial `raw.strip()`. -/
def parseCreateStripped (raw : String) (today : Date) : Except Unit ParsedCreate :=
  if raw = "" then .ok { raw := "", title := "" }
  else
    let ld : String × Option String :=
      match splitTwoSlash raw.data.length raw.data with
      | none => (raw, none)
      | some p =>
        let l := pyStripStr ⟨p.1⟩
        let d0 := pyStripStr ⟨p.2⟩
        (l, if d0 = "" then none else some (normalizeDetails d0))
    let tokens := splitWS ld.1
    do
      let acc ← parseLoop today (tokens.length + 1) tokens {}
      .ok { raw := raw
            title := pyStripStr (joinSpace acc.keep)
            details := ld.2
            scheduled := acc.scheduled
            due := acc.due
            priority := acc.priority
            tags := pyDedup acc.tags
            projects := pyDedup acc.projects
            warnings := acc.warnings }

/-- `parse_create_input(raw, today=today)`. -/
def parse_create_input (raw : String) (today : Date) : Except Unit ParsedCreate :=
  parseCreateStripped (pyStripStr raw) today

/-! ## Task cache controller (`cache.py` + `_fetch_tasks_with_cache`) -/

/-- Opaque stand-in for a task dict; the controller never inspects tasks. -/
abbrev TaskD := Nat

/-- The task snapshot document `{version, timestamp, tasks[]}`.
`timestamp = none` models an absent/non-numeric value, `tasks = none` an
absent/non-list value, and a `none` list element a non-dict entry. -/
structure TaskSnapshot where
  version : Nat := 1
  timestamp : Option Int := none
  tasks : Option (List (Option TaskD)) := none
deriving DecidableEq

/-- The refresh-state document
`{refresh_requested, requested_at, last_attempt, last_success}`. -/
structure RefreshState where
  refresh_requested : Option Bool := none
  requested_at : Option Int := none
  last_attempt : Option Int := none
  last_success : Option Int := none
deriving DecidableEq

/-- `load_refresh_state`: `read_json_file(...) or {}`. -/
def loadRefreshState (doc : Option RefreshState) : RefreshState := doc.getD {}

/-- `TaskCache.__init__` tunables. -/
structure TaskCacheCfg where
  ttl_seconds : Int := 5
  max_stale_seconds : Int := 600
  refresh_backoff_seconds : Int := 5
deriving DecidableEq

/-- `TASK_CACHE_RERUN_SECONDS` default. -/
def TASK_CACHE_RERUN_SECONDS : ℚ := 2/5

/-- Result of `TaskCache.get_cache_status`. -/
structure CacheStatus where
  tasks : List TaskD
  age : Option Int
  is_fresh : Bool
  is_usable : Bool
  refresh_requested : Bool
  should_fetch : Bool
  state : RefreshState
deriving DecidableEq

/-- `TaskCache.get_cache_status`, with the clock read and the two document
reads passed in explicitly. -/
def getCacheStatus (cfg : TaskCacheCfg) (now : Int) (cacheDoc : Option TaskSnapshot)
    (stateDoc : Option RefreshState) : CacheStatus :=
  let state := loadRefreshState stateDoc
  let ta : List TaskD × Option Int :=
    match cacheDoc with
    | some c =>
      match c.tasks, c.timestamp with
      | some ts, some t => (ts.filterMap id, some (now - t))
      | _, _ => ([], none)
    | none => ([], none)
  let tasks := ta.1
  let age := ta.2
  let is_usable := !tasks.isEmpty && age.isSome && age.any (· ≤ cfg.max_stale_seconds)
  let is_fresh := is_usable && age.isSome && age.any (· ≤ cfg.ttl_seconds)
  let refresh_requested := state.refresh_requested.getD false
  let last_attempt := state.last_attempt.getD 0
  let should_fetch :=
    !(refresh_requested && decide (now - last_attempt < cfg.refresh_backoff_seconds) && is_usable)
  { tasks := tasks
    age := age
    is_fresh := is_fresh
    is_usable := is_usable
    refresh_requested := refresh_requested
    should_fetch := should_fetch
    state := state }

/-- `TaskCache.mark_refresh_requested` (the state transition it writes). -/
def markRefreshRequested (prev : RefreshState) (now : Int) : RefreshState :=
  { prev with refresh_requested := some true, requested_at := some now }

/-- `TaskCache.mark_fetch_attempt`. -/
def markFetchAttempt (prev : RefreshState) (now : Int) : RefreshState :=
  { prev with last_attempt := some now }

/-- State part of `TaskCache.mark_fetch_success`. -/
def markFetchSuccess (prev : RefreshState) (now : Int) : RefreshState :=
  { prev with refresh_requested := some false, last_success := some now }

/-- `mark_refresh_requested` including its load of the on-disk document. -/
def markRefreshRequestedDoc (doc : Option RefreshState) (now : Int) : RefreshState :=
  markRefreshRequested (loadRefreshState doc) now

/-- `mark_fetch_attempt` including its load of the on-disk document. -/
def markFetchAttemptDoc (doc : Option RefreshState) (now : Int) : RefreshState :=
  markFetchAttempt (loadRefreshState doc) now

/-- Outcome of one `_fetch_tasks_with_cache` invocation: the returned pair
plus the documents after the invocation and whether case 3 (a fetch attempt)
was entered. -/
structure ControllerResult where
  tasks : List TaskD
  rerun : Option ℚ
  fetched : Bool
  stateDoc : Option RefreshState
  cacheDoc : Option TaskSnapshot
deriving DecidableEq

/-- `_fetch_tasks_with_cache`: pure state-passing form.  `fetchResult` is the
outcome of the `tn.list_tasks` call (`.error` = the call raised); the
surrounding `try/except` keeps the controller itself total. -/
def fetchTasksWithCache (cfg : TaskCacheCfg) (rerunSeconds : ℚ) (now : Int)
    (cacheDoc : Option TaskSnapshot) (stateDoc : Option RefreshState)
    (fetchResult : Except Unit (List TaskD)) : ControllerResult :=
  let status := getCacheStatus cfg now cacheDoc stateDoc
  if status.is_usable && !status.is_fresh && !status.refresh_requested then
    { tasks := status.tasks, rerun := some rerunSeconds, fetched := false,
      stateDoc := some (markRefreshRequestedDoc stateDoc now), cacheDoc := cacheDoc }
  else if !status.should_fetch && status.is_usable then
    { tasks := status.tasks, rerun := none, fetched := false,
      stateDoc := stateDoc, cacheDoc := cacheDoc }
  else
    let st1 := markFetchAttemptDoc stateDoc now
    match fetchResult with
    | .ok freshTasks =>
      { tasks := freshTasks, rerun := none, fetched := true,
        stateDoc := some (markFetchSuccess st1 now),
        cacheDoc := some { version := 1, timestamp := some now,
                           tasks := some (freshTasks.map some) } }
    | .error _ =>
      if status.is_usable then
        { tasks := status.tasks, rerun := some rerunSeconds, fetched := true,
          stateDoc := some st1, cacheDoc := cacheDoc }
      else
        { tasks := [], rerun := none, fetched := true,
          stateDoc := some st1, cacheDoc := cacheDoc }

/-! ## Reference data for the concrete instances -/

instance instDecEqExcept {ε α : Type} [DecidableEq ε] [DecidableEq α] :
    DecidableEq (Except ε α) := fun a b =>
  match a, b with
  | .error e, .error f =>
    if h : e = f then isTrue (by rw [h]) else isFalse (by simp [h])
  | .ok x, .ok y =>
    if h : x = y then isTrue (by rw [h]) else isFalse (by simp [h])
  | .error _, .ok _ => isFalse (fun hh => Except.noConfusion hh)
  | .ok _, .error _ => isFalse (fun hh => Except.noConfusion hh)

/-- Reference date 2026-01-10 used by the concrete instances below. -/
def refDate : Date := ⟨2026, 1, 10⟩

def pcStripped : ParsedCreate := { raw := "x", title := "x" }

def pcBuyMilk : ParsedCreate :=
  { raw := "Buy milk tomorrow", title := "Buy milk", scheduled := some "2026-01-11" }

/-- Days of the month (1-based) that fall on weekday `w`. -/
def weekdayDays (y m w : Nat) : List Nat :=
  ((List.range (daysInMonth y m)).map (· + 1)).filter (fun d => Date.weekday ⟨y, m, d⟩ == w)

/-- The k-th (1-based) occurrence of weekday `w` in month `(y, m)`, if it exists. -/
def nthOccurrence (y m w k : Nat) : Option Nat := (weekdayDays y m w).get? (k - 1)

/-- The last occurrence of weekday `w` in month `(y, m)`. -/
def lastOccurrence (y m w : Nat) : Option Nat := (weekdayDays y m w).getLast?

/-! ## Theorems: cache controller claims -/

/-- C10: for a refresh-state document that loads successfully,
`mark_refresh_requested` only sets `refresh_requested := true` and updates
`requested_at`, leaving `last_attempt` and `last_success` unchanged, and
`mark_fetch_attempt` only updates `last_attempt`, leaving the other three
fields unchanged. -/
theorem c10_refresh_state_frame (doc : RefreshState) (now : Int) :
    (markRefreshRequestedDoc (some doc) now).last_attempt = doc.last_attempt ∧
    (markRefreshRequestedDoc (some doc) now).last_success = doc.last_success ∧
    (markRefreshRequestedDoc (some doc) now).refresh_requested = some true ∧
    (markRefreshRequestedDoc (some doc) now).requested_at = some now ∧
    (markFetchAttemptDoc (some doc) now).refresh_requested = doc.refresh_requested ∧
    (markFetchAttemptDoc (some doc) now).requested_at = doc.requested_at ∧
    (markFetchAttemptDoc (some doc) now).last_success = doc.last_success ∧
    (markFetchAttemptDoc (some doc) now).last_attempt = some now := by
  refine ⟨rfl, rfl, rfl, rfl, rfl, rfl, rfl, rfl⟩

/-- C8: when the controller reaches the fetch (neither of the two cache
short-circuits applies) and the external fetch raises, it returns the stale
cached tasks with a re-run signal when a usable snapshot exists, and an
empty list with no re-run signal otherwise; being a total function of its
inputs, no exception escapes it. -/
theorem c8_fetch_failure (cfg : TaskCacheCfg) (rr : ℚ) (now : Int) (cd : Option TaskSnapshot)
    (sd : Option RefreshState)
    (h1 : ((getCacheStatus cfg now cd sd).is_usable &&
           !(getCacheStatus cfg now cd sd).is_fresh &&
           !(getCacheStatus cfg now cd sd).refresh_requested) = false)
    (h2 : (!(getCacheStatus cfg now cd sd).should_fetch &&
           (getCacheStatus cfg now cd sd).is_usable) = false) :
    ((getCacheStatus cfg now cd sd).is_usable = true →
      fetchTasksWithCache cfg rr now cd sd (.error ()) =
        { tasks := (getCacheStatus cfg now cd sd).tasks, rerun := some rr, fetched := true,
          stateDoc := some (markFetchAttemptDoc sd now), cacheDoc := cd }) ∧
    ((getCacheStatus cfg now cd sd).is_usable = false →
      fetchTasksWithCache cfg rr now cd sd (.error ()) =
        { tasks := [], rerun := none, fetched := true,
          stateDoc := some (markFetchAttemptDoc sd now), cacheDoc := cd }) := by
  constructor <;> intro hu
  · have h1' : (!(getCacheStatus cfg now cd sd).is_fresh &&
        !(getCacheStatus cfg now cd sd).refresh_requested) = false := by
      simpa [hu] using h1
    have h2' : (!(getCacheStatus cfg now cd sd).should_fetch) = false := by
      simpa [hu] using h2
    simp [fetchTasksWithCache, hu, h1', h2']
  · simp [fetchTasksWithCache, hu]

theorem c8_fetch_failure_witness :
    fetchTasksWithCache {} (2/5) 100 none none (.error ()) =
      { tasks := [], rerun := none, fetched := true,
        stateDoc := some (markFetchAttemptDoc none 100), cacheDoc := none } :=
  (c8_fetch_failure {} (2/5) 100 none none (by decide) (by decide)).2 (by decide)

/-- C3 counterexample: a fresh snapshot (`age = 1 < ttl = 5`, `is_fresh`)
with no pending refresh request still reaches case 3: a fetch is performed
and the returned tasks are the freshly fetched ones, not the cached ones. -/
theorem c3_counterexample :
    (getCacheStatus {} 100 (some { timestamp := some 99, tasks := some [some 7] }) none).is_fresh
      = true ∧
    (fetchTasksWithCache {} (2/5) 100 (some { timestamp := some 99, tasks := some [some 7] })
      none (.ok [8])).fetched = true ∧
    (fetchTasksWithCache {} (2/5) 100 (some { timestamp := some 99, tasks := some [some 7] })
      none (.ok [8])).tasks ≠
      (getCacheStatus {} 100 (some { timestamp := some 99, tasks := some [some 7] }) none).tasks := by
  refine ⟨by decide, by decide, by decide⟩

/-- C3 (amended): with a fresh snapshot the controller returns the cached
tasks with no re-run signal and performs no fetch only when a refresh is
already requested and the backoff window since the last fetch attempt has
not elapsed; that is the backoff short-circuit (case 2), which the fresh
snapshot satisfies via `is_usable`. -/
theorem c3_fresh_backoff_uses_cache (cfg : TaskCacheCfg) (rr : ℚ) (now : Int)
    (cd : Option TaskSnapshot) (sd : Option RefreshState)
    (fetchResult : Except Unit (List TaskD))
    (hf : (getCacheStatus cfg now cd sd).is_fresh = true)
    (hr : (getCacheStatus cfg now cd sd).refresh_requested = true)
    (hb : now - (loadRefreshState sd).last_attempt.getD 0 < cfg.refresh_backoff_seconds) :
    fetchTasksWithCache cfg rr now cd sd fetchResult =
      { tasks := (getCacheStatus cfg now cd sd).tasks, rerun := none, fetched := false,
        stateDoc := sd, cacheDoc := cd } := by
  have hu : (getCacheStatus cfg now cd sd).is_usable = true := by
    have h := hf
    simp only [getCacheStatus] at h ⊢
    simp only [Bool.and_eq_true] at h ⊢
    exact h.1.1
  have hsf : (getCacheStatus cfg now cd sd).should_fetch = false := by
    revert hu hr
    simp only [getCacheStatus]
    intro hu hr
    simp_all [hb]
  simp [fetchTasksWithCache, hf, hr, hu, hsf]

theorem c3_fresh_backoff_uses_cache_witness :
    fetchTasksWithCache {} (2/5) 100
      (some { timestamp := some 99, tasks := some [some 7] })
      (some { refresh_requested := some true, last_attempt := some 98 }) (.ok [8]) =
      { tasks := [7], rerun := none, fetched := false,
        stateDoc := some { refresh_requested := some true, last_attempt := some 98 },
        cacheDoc := some { timestamp := some 99, tasks := some [some 7] } } := by
  have h := c3_fresh_backoff_uses_cache {} (2/5) 100
    (some { timestamp := some 99, tasks := some [some 7] })
    (some { refresh_requested := some true, last_attempt := some 98 })
    (.ok [8]) (by decide) (by decide) (by norm_num [loadRefreshState])
  simpa using h

/-- C4: a usable-but-stale snapshot with no pending refresh request makes the
first invocation mark `refresh_requested` (writing the state document, with
`last_attempt` untouched) and return the cached tasks with a re-run signal
and no fetch; a second invocation against the written state, still usable and
within the backoff window measured from `last_attempt`, returns the cached
tasks with no re-run signal, performs no fetch and writes nothing. -/
theorem c4_stale_then_backoff (cfg : TaskCacheCfg) (rr : ℚ) (now1 now2 : Int)
    (cd : Option TaskSnapshot) (sd : Option RefreshState)
    (f1 f2 : Except Unit (List TaskD))
    (hu : (getCacheStatus cfg now1 cd sd).is_usable = true)
    (hf : (getCacheStatus cfg now1 cd sd).is_fresh = false)
    (hr : (getCacheStatus cfg now1 cd sd).refresh_requested = false)
    (hu2 : (getCacheStatus cfg now2 cd (some (markRefreshRequestedDoc sd now1))).is_usable = true)
    (hb : now2 - (loadRefreshState sd).last_attempt.getD 0 < cfg.refresh_backoff_seconds) :
    fetchTasksWithCache cfg rr now1 cd sd f1 =
      { tasks := (getCacheStatus cfg now1 cd sd).tasks, rerun := some rr, fetched := false,
        stateDoc := some (markRefreshRequestedDoc sd now1), cacheDoc := cd } ∧
    fetchTasksWithCache cfg rr now2 cd (some (markRefreshRequestedDoc sd now1)) f2 =
      { tasks := (getCacheStatus cfg now1 cd sd).tasks, rerun := none, fetched := false,
        stateDoc := some (markRefreshRequestedDoc sd now1), cacheDoc := cd } := by
  have htasks : (getCacheStatus cfg now2 cd (some (markRefreshRequestedDoc sd now1))).tasks =
      (getCacheStatus cfg now1 cd sd).tasks := by
    rcases cd with _ | c
    · rfl
    · rcases c with ⟨v, ts, tk⟩
      rcases ts with _ | t <;> rcases tk with _ | l <;> rfl
  have hr2 : (getCacheStatus cfg now2 cd (some (markRefreshRequestedDoc sd now1))).refresh_requested
      = true := by
    simp [getCacheStatus, loadRefreshState, markRefreshRequestedDoc, markRefreshRequested]
  have hb2 : now2 - (loadRefreshState (some (markRefreshRequestedDoc sd now1))).last_attempt.getD 0
      < cfg.refresh_backoff_seconds := by
    simpa [loadRefreshState, markRefreshRequestedDoc, markRefreshRequested] using hb
  have hsf2 : (getCacheStatus cfg now2 cd (some (markRefreshRequestedDoc sd now1))).should_fetch
      = false := by
    revert hu2 hr2 hb2
    simp only [getCacheStatus, loadRefreshState]
    intro hu2 hr2 hb2
    simp_all
  constructor
  · simp [fetchTasksWithCache, hu, hf, hr]
  · rw [← htasks]
    simp [fetchTasksWithCache, hr2, hu2, hsf2]

theorem c4_stale_then_backoff_witness :
    fetchTasksWithCache {} (2/5) 100 (some { timestamp := some 0, tasks := some [some 7] })
      (some { last_attempt := some 98 }) (.ok [8]) =
      { tasks := [7], rerun := some (2/5), fetched := false,
        stateDoc := some (markRefreshRequestedDoc (some { last_attempt := some 98 }) 100),
        cacheDoc := some { timestamp := some 0, tasks := some [some 7] } } ∧
    fetchTasksWithCache {} (2/5) 101 (some { timestamp := some 0, tasks := some [some 7] })
      (some (markRefreshRequestedDoc (some { last_attempt := some 98 }) 100)) (.ok [9]) =
      { tasks := [7], rerun := none, fetched := false,
        stateDoc := some (markRefreshRequestedDoc (some { last_attempt := some 98 }) 100),
        cacheDoc := some { timestamp := some 0, tasks := some [some 7] } } := by
  have h := c4_stale_then_backoff {} (2/5) 100 101
    (some { timestamp := some 0, tasks := some [some 7] })
    (some { last_attempt := some 98 }) (.ok [8]) (.ok [9])
    (by decide) (by decide) (by decide) (by decide)
    (by norm_num [loadRefreshState])
  simpa using h

/-! ## Theorems: parser claims -/

theorem dropWhile_rdropWhile_self (p : Char → Bool) (M : List Char)
    (hM : List.dropWhile p M = M) :
    List.dropWhile p (List.rdropWhile p M) = List.rdropWhile p M := by
  rw [List.dropWhile_eq_self_iff] at hM ⊢
  intro hl
  have hpre := List.rdropWhile_prefix p M
  have hlen : 0 < M.length := lt_of_lt_of_le hl hpre.length_le
  have hget : (List.rdropWhile p M).get ⟨0, hl⟩ = M.get ⟨0, hlen⟩ := by
    simpa [List.get_eq_getElem] using hpre.getElem hl
  rw [hget]
  exact hM hlen

theorem stripEnds_idem (p : Char → Bool) (l : List Char) :
    stripEnds p (stripEnds p l) = stripEnds p l := by
  unfold stripEnds
  rw [dropWhile_rdropWhile_self p _ (List.dropWhile_idempotent _ _),
    List.rdropWhile_idempotent]

theorem pyStripStr_idem (s : String) : pyStripStr (pyStripStr s) = pyStripStr s := by
  unfold pyStripStr
  exact congrArg String.mk (stripEnds_idem _ _)

theorem parseCreateStripped_raw (t : String) (today : Date) (r : ParsedCreate)
    (h : parseCreateStripped t today = .ok r) : r.raw = t := by
  unfold parseCreateStripped at h
  split at h
  case isTrue ht =>
    cases h
    exact ht.symm
  case isFalse ht =>
    simp only [bind, Except.bind] at h
    split at h
    · exact absurd h (by simp)
    · cases h
      rfl

/-- C5: `parse_create_input` is claimed never to raise, but the relative
offset `in 99999 years` reaches `_add_years`, whose unguarded
`date(102025, ...)` constructor raises `ValueError` with any ordinary
reference date; the exception escapes `parse_create_input`. -/
theorem c5_crash_on_large_relative_offset :
    parse_create_input "x in 99999 years" ⟨2026, 1, 10⟩ = .error () := by decide

/-- C9 counterexample: `parse_create_input` stores `raw.strip()`, so for the
input `" x"` (leading space) the `raw` field is `"x"`, not the original
input string. -/
theorem c9_counterexample :
    (parse_create_input " x" refDate).toOption.map ParsedCreate.raw = some "x" ∧
    (parse_create_input " x" refDate).toOption.map ParsedCreate.raw ≠ some " x" := by
  constructor <;> decide

/-- C9 (amended): the `raw` field of a successful parse equals the input
stripped of leading and trailing whitespace (hence equals the input exactly
whenever the input has no leading/trailing whitespace). -/
theorem c9_raw_is_stripped_input (s : String) (today : Date) (r : ParsedCreate)
    (h : parse_create_input s today = .ok r) : r.raw = pyStripStr s := by
  unfold parse_create_input at h
  exact parseCreateStripped_raw _ _ _ h

theorem c9_raw_is_stripped_input_witness :
    parse_create_input " x" refDate = .ok pcStripped ∧ pcStripped.raw = pyStripStr " x" :=
  ⟨by decide, c9_raw_is_stripped_input " x" refDate pcStripped (by decide)⟩

/-- C6: parsing is a pure function of `(raw, today)` (it is a Lean function
of exactly these arguments), and re-parsing `parsed.raw` with the same
`today` reproduces the identical result object in every field. -/
theorem c6_reparse_idempotent (s : String) (today : Date) (r : ParsedCreate)
    (h : parse_create_input s today = .ok r) :
    parse_create_input r.raw today = .ok r := by
  have hraw : r.raw = pyStripStr s := by
    unfold parse_create_input at h
    exact parseCreateStripped_raw _ _ _ h
  unfold parse_create_input at h ⊢
  rw [hraw, pyStripStr_idem]
  exact h

theorem c6_reparse_idempotent_witness :
    parse_create_input "Buy milk tomorrow" refDate = .ok pcBuyMilk ∧
    parse_create_input pcBuyMilk.raw refDate = .ok pcBuyMilk :=
  ⟨by decide, c6_reparse_idempotent "Buy milk tomorrow" refDate pcBuyMilk (by decide)⟩

set_option maxHeartbeats 2000000 in
/-- C1: a bare date phrase (current token not a priority/tag/project/context
token and not one of the date keywords `due:`, `due`, `by`, `sch:`,
`do/sch/on/start/scheduled`) that the date matcher recognizes is matched
with `allow_past = false` and its result is assigned to `scheduled`, with
`due` (and every other field) left unchanged; and parsing
`"Buy milk tomorrow"` at 2026-01-10 yields title `"Buy milk"`,
scheduled `"2026-01-11"`, due `none`. -/
theorem c1_bare_dates_go_to_scheduled :
    (∀ (today : Date) (tok : String) (rest : List String) (acc : ParseAcc)
        (dtOpt : Option String) (c : Nat),
      prioVal (cleanCase tok) = none →
      pyStartsWith tok "#" = false →
      pyStartsWith tok "+" = false →
      pyStartsWith tok "@" = false →
      pyStartsWith (cleanCase tok) "due:" = false →
      cleanCase tok ≠ "due" →
      cleanCase tok ≠ "by" →
      pyStartsWith (cleanCase tok) "sch:" = false →
      cleanCase tok ≠ "do" →
      cleanCase tok ≠ "sch" →
      cleanCase tok ≠ "on" →
      cleanCase tok ≠ "start" →
      cleanCase tok ≠ "scheduled" →
      parse_date_phrase (tok :: rest) today false = .ok (dtOpt, c) →
      optTruthy dtOpt = true →
      c > 0 →
      parseStep today tok rest acc =
        .ok ({ acc with scheduled := dtOpt }, (tok :: rest).drop c)) ∧
    parse_create_input "Buy milk tomorrow" refDate =
      .ok { raw := "Buy milk tomorrow", title := "Buy milk", scheduled := some "2026-01-11" } := by
  constructor
  · intro today tok rest acc dtOpt c h1 h2 h3 h4 h5 h6 h7 h8 h9 h10 h11 h12 h13 hp ht hc
    simp only [parseStep, h1, h2, h3, h4, Bool.false_and, Bool.false_eq_true, if_false,
      stepDueColon, h5, stepDue, if_neg h6, stepBy, if_neg h7, stepSchColon, h8,
      stepSchKw, stepBare, bind, Except.bind, hp, ht, hc, Bool.true_and, decide_eq_true_eq,
      if_true]
    rw [if_neg (by simp [h9, h10, h11, h12, h13])]
  · decide

theorem c1_bare_dates_go_to_scheduled_witness :
    parse_date_phrase ["tomorrow"] refDate false = .ok (some "2026-01-11", 1) ∧
    parseStep refDate "tomorrow" [] {} =
      .ok ({ scheduled := some "2026-01-11" }, ([] : List String)) :=
  ⟨by decide,
    by
      have h := c1_bare_dates_go_to_scheduled.1 refDate "tomorrow" [] {} (some "2026-01-11") 1
        (by decide) (by decide) (by decide) (by decide) (by decide) (by decide) (by decide)
        (by decide) (by decide) (by decide) (by decide) (by decide) (by decide) (by decide)
        (by decide) (by decide)
      simpa using h⟩

set_option maxHeartbeats 2000000 in
/-- C2: date phrases introduced by the explicit keywords `due`, `by`, `do`,
`sch`, and the colon forms `due:<date>`, `sch:<date>`, are matched with
`allow_past = true`; `due`/`by`/`due:` assign the result to `due` and
`do`/`sch`/`sch:` to `scheduled`, in each case leaving the other fields
unchanged; and parsing `"Pay rent due 1/5"` at 2026-01-10 yields
`due = "2026-01-05"` — kept in the past, not rolled to 2027. -/
theorem c2_keyword_dates_allow_past :
    (∀ (today : Date) (rest : List String) (acc : ParseAcc) (dtOpt : Option String) (c : Nat),
      parse_date_phrase rest today true = .ok (dtOpt, c) →
      optTruthy dtOpt = true →
      parseStep today "due" rest acc = .ok ({ acc with due := dtOpt }, rest.drop c)) ∧
    (∀ (today : Date) (rest : List String) (acc : ParseAcc) (dtOpt : Option String) (c : Nat),
      parse_date_phrase rest today true = .ok (dtOpt, c) →
      optTruthy dtOpt = true →
      parseStep today "by" rest acc = .ok ({ acc with due := dtOpt }, rest.drop c)) ∧
    (∀ (today : Date) (rest : List String) (acc : ParseAcc) (dtOpt : Option String) (c : Nat),
      parse_date_phrase rest today true = .ok (dtOpt, c) →
      optTruthy dtOpt = true →
      parseStep today "do" rest acc = .ok ({ acc with scheduled := dtOpt }, rest.drop c)) ∧
    (∀ (today : Date) (rest : List String) (acc : ParseAcc) (dtOpt : Option String) (c : Nat),
      parse_date_phrase rest today true = .ok (dtOpt, c) →
      optTruthy dtOpt = true →
      parseStep today "sch" rest acc = .ok ({ acc with scheduled := dtOpt }, rest.drop c)) ∧
    (∀ (today : Date) (tok : String) (rest : List String) (acc : ParseAcc)
        (dtOpt : Option String) (c : Nat),
      prioVal (cleanCase tok) = none →
      pyStartsWith tok "#" = false →
      pyStartsWith tok "+" = false →
      pyStartsWith tok "@" = false →
      pyStartsWith (cleanCase tok) "due:" = true →
      pyStripStr (strDrop tok 4) ≠ "" →
      parse_date_phrase [pyStripStr (strDrop tok 4)] today true = .ok (dtOpt, c) →
      optTruthy dtOpt = true →
      parseStep today tok rest acc = .ok ({ acc with due := dtOpt }, rest)) ∧
    (∀ (today : Date) (tok : String) (rest : List String) (acc : ParseAcc)
        (dtOpt : Option String) (c : Nat),
      prioVal (cleanCase tok) = none →
      pyStartsWith tok "#" = false →
      pyStartsWith tok "+" = false →
      pyStartsWith tok "@" = false →
      pyStartsWith (cleanCase tok) "due:" = false →
      cleanCase tok ≠ "due" →
      cleanCase tok ≠ "by" →
      pyStartsWith (cleanCase tok) "sch:" = true →
      pyStripStr (strDrop tok 4) ≠ "" →
      parse_date_phrase [pyStripStr (strDrop tok 4)] today true = .ok (dtOpt, c) →
      optTruthy dtOpt = true →
      parseStep today tok rest acc = .ok ({ acc with scheduled := dtOpt }, rest)) ∧
    parse_create_input "Pay rent due 1/5" refDate =
      .ok { raw := "Pay rent due 1/5", title := "Pay rent", due := some "2026-01-05" } := by
  refine ⟨?_, ?_, ?_, ?_, ?_, ?_, ?_⟩
  · intro today rest acc dtOpt c hp ht
    simp +decide only [parseStep, stepDueColon, stepDue, bind, Except.bind, hp, ht,
      if_true, if_false, ite_true, ite_false, Bool.false_and, Bool.false_eq_true,
      eq_self_iff_true]
    rw [show prioVal (cleanCase "due") = none from by decide]
  · intro today rest acc dtOpt c hp ht
    simp +decide only [parseStep, stepDueColon, stepDue, stepBy, bind, Except.bind, hp, ht,
      if_true, if_false, ite_true, ite_false, Bool.false_and, Bool.false_eq_true,
      eq_self_iff_true]
    rw [show prioVal (cleanCase "by") = none from by decide]
  · intro today rest acc dtOpt c hp ht
    simp +decide only [parseStep, stepDueColon, stepDue, stepBy, stepSchColon, stepSchKw,
      bind, Except.bind, hp, ht, if_true, if_false, ite_true, ite_false, Bool.false_and,
      Bool.false_eq_true, eq_self_iff_true]
    rw [show prioVal (cleanCase "do") = none from by decide]
  · intro today rest acc dtOpt c hp ht
    simp +decide only [parseStep, stepDueColon, stepDue, stepBy, stepSchColon, stepSchKw,
      bind, Except.bind, hp, ht, if_true, if_false, ite_true, ite_false, Bool.false_and,
      Bool.false_eq_true, eq_self_iff_true]
    rw [show prioVal (cleanCase "sch") = none from by decide]
  · intro today tok rest acc dtOpt c h1 h2 h3 h4 h5 hne hp ht
    simp only [parseStep, h1, h2, h3, h4, Bool.false_and, Bool.false_eq_true, if_false,
      stepDueColon, h5, if_true, if_pos hne, bind, Except.bind, hp, ht]
  · intro today tok rest acc dtOpt c h1 h2 h3 h4 h5 h6 h7 h8 hne hp ht
    simp only [parseStep, h1, h2, h3, h4, Bool.false_and, Bool.false_eq_true, if_false,
      stepDueColon, h5, stepDue, if_neg h6, stepBy, if_neg h7, stepSchColon, h8,
      if_true, if_pos hne, bind, Except.bind, hp, ht]
  · decide

theorem c2_keyword_dates_allow_past_witness :
    parse_date_phrase ["1/5"] refDate true = .ok (some "2026-01-05", 1) ∧
    parseStep refDate "due" ["1/5"] {} =
      .ok (({ due := some "2026-01-05" } : ParseAcc), ([] : List String)) ∧
    parseStep refDate "due:1/5" [] {} =
      .ok (({ due := some "2026-01-05" } : ParseAcc), ([] : List String)) := by
  refine ⟨by decide, ?_, ?_⟩
  · have h := c2_keyword_dates_allow_past.1 refDate ["1/5"] {} (some "2026-01-05") 1
      (by decide) (by decide)
    simpa using h
  · have h := c2_keyword_dates_allow_past.2.2.2.2.1 refDate "due:1/5" [] {}
      (some "2026-01-05") 1 (by decide) (by decide) (by decide) (by decide) (by decide)
      (by decide) (by decide) (by decide)
    simpa using h

/-! ## Theorems: nth weekday of month (C7) -/

theorem daysInMonth_bounds (y m : Nat) (h1 : 1 ≤ m) (h2 : m ≤ 12) :
    28 ≤ daysInMonth y m ∧ daysInMonth y m ≤ 31 := by
  interval_cases m <;> simp only [daysInMonth] <;> first
    | omega
    | (cases isLeap y <;> simp)

set_option maxHeartbeats 4000000 in
set_option synthInstance.maxSize 6000 in
set_option synthInstance.maxHeartbeats 4000000 in
theorem nthWeekdayCases :
    ∀ (fw : Nat), fw < 7 → ∀ (w : Nat), w < 7 → ∀ (dim : Nat), dim < 32 → 28 ≤ dim →
    ∀ (km : Nat), km < 5 →
      ((((List.range dim).map (· + 1)).filter (fun d => (fw + d + 6) % 7 == w)).get? km =
        if (1 : Int) + ((w : Int) - (fw : Int)) % 7 + (((km + 1 : Nat) : Int) - 1) * 7 ≤ (dim : Int)
        then some ((1 : Int) + ((w : Int) - (fw : Int)) % 7 + (((km + 1 : Nat) : Int) - 1) * 7).toNat
        else none) ∧
      (((List.range dim).map (· + 1)).filter (fun d => (fw + d + 6) % 7 == w)).getLast? =
        some ((dim : Int) - (((((fw + (dim - 1)) % 7 : Nat) : Int) - (w : Int)) % 7)).toNat := by
  decide

set_option maxHeartbeats 2000000 in
/-- C7: for every valid year/month, weekday 0..6 and ordinal 1..5,
`_nth_weekday_of_month` returns exactly the k-th occurrence of that weekday
in the month when it exists and `none` otherwise; for ordinal `-1` it
returns the last occurrence, which always exists; in particular the first
Monday of January 2026 is 2026-01-05. -/
theorem c7_nth_weekday_of_month_correct :
    (∀ (y m w k : Nat), 1 ≤ y → y ≤ 9999 → 1 ≤ m → m ≤ 12 → w < 7 → 1 ≤ k → k ≤ 5 →
      (nth_weekday_of_month y m w (k : Int) =
        .ok ((nthOccurrence y m w k).map (fun d => (⟨y, m, d⟩ : Date)))) ∧
      (nth_weekday_of_month y m w (-1) =
        .ok ((lastOccurrence y m w).map (fun d => (⟨y, m, d⟩ : Date)))) ∧
      (lastOccurrence y m w).isSome = true) ∧
    nth_weekday_of_month 2026 1 0 1 = .ok (some ⟨2026, 1, 5⟩) := by
  constructor
  · intro y m w k hy1 hy2 hm1 hm2 hw hk1 hk5
    obtain ⟨hdim1, hdim2⟩ := daysInMonth_bounds y m hm1 hm2
    have hfw : monthFirstWeekday y m = (daysBeforeYear y + daysBeforeMonth y m) % 7 := by
      unfold monthFirstWeekday
      rw [if_pos ⟨hy1, hy2⟩]
      show (daysBeforeYear y + daysBeforeMonth y m + 1 + 6) % 7 = _
      omega
    have hwd : ∀ d : Nat, Date.weekday ⟨y, m, d⟩ =
        ((daysBeforeYear y + daysBeforeMonth y m) % 7 + d + 6) % 7 := by
      intro d
      show (daysBeforeYear y + daysBeforeMonth y m + d + 6) % 7 = _
      omega
    have hfilter : weekdayDays y m w =
        ((List.range (daysInMonth y m)).map (· + 1)).filter
          (fun d => ((daysBeforeYear y + daysBeforeMonth y m) % 7 + d + 6) % 7 == w) := by
      unfold weekdayDays
      exact List.filter_congr (fun d _ => by rw [hwd d])
    obtain ⟨haux1, haux2⟩ := nthWeekdayCases
      ((daysBeforeYear y + daysBeforeMonth y m) % 7) (Nat.mod_lt _ (by norm_num))
      w hw (daysInMonth y m) (by omega) hdim1 (k - 1) (by omega)
    rw [show k - 1 + 1 = k from by omega] at haux1
    have hnn : (0 : Int) ≤ ((w : Int) - (((daysBeforeYear y + daysBeforeMonth y m) % 7 : Nat) : Int)) % 7 :=
      Int.emod_nonneg _ (by norm_num)
    have hlt7 : ((w : Int) - (((daysBeforeYear y + daysBeforeMonth y m) % 7 : Nat) : Int)) % 7 < 7 :=
      Int.emod_lt_of_pos _ (by norm_num)
    refine ⟨?_, ?_, ?_⟩
    · simp only [nth_weekday_of_month, hfw]
      rw [if_neg (by omega : ¬((k : Nat) : Int) = -1), if_neg (by omega : ¬((k : Nat) : Int) < 1)]
      rw [show nthOccurrence y m w k = (weekdayDays y m w).get? (k - 1) from rfl, hfilter, haux1]
      by_cases hle : (1 : Int) + ((w : Int) - (((daysBeforeYear y + daysBeforeMonth y m) % 7 : Nat) : Int)) % 7
          + ((k : Int) - 1) * 7 ≤ ((daysInMonth y m : Nat) : Int)
      · rw [if_neg (by omega), if_pos hle]
        rw [show mkDate y m ((1 : Int) + ((w : Int) - (((daysBeforeYear y + daysBeforeMonth y m) % 7 : Nat) : Int)) % 7
              + ((k : Int) - 1) * 7).toNat =
            .ok ⟨y, m, ((1 : Int) + ((w : Int) - (((daysBeforeYear y + daysBeforeMonth y m) % 7 : Nat) : Int)) % 7
              + ((k : Int) - 1) * 7).toNat⟩ from by
          unfold mkDate
          rw [if_pos (by refine ⟨hy1, hy2, hm1, hm2, ?_, ?_⟩ <;> omega)]]
        rfl
      · rw [if_pos (by omega), if_neg hle]
        rfl
    · have hnn2 : (0 : Int) ≤ (((((daysBeforeYear y + daysBeforeMonth y m) % 7 + (daysInMonth y m - 1)) % 7 : Nat) : Int)
          - (w : Int)) % 7 := Int.emod_nonneg _ (by norm_num)
      have hlt2 : (((((daysBeforeYear y + daysBeforeMonth y m) % 7 + (daysInMonth y m - 1)) % 7 : Nat) : Int)
          - (w : Int)) % 7 < 7 := Int.emod_lt_of_pos _ (by norm_num)
      simp only [nth_weekday_of_month, hfw]
      rw [if_pos trivial]
      rw [show lastOccurrence y m w = (weekdayDays y m w).getLast? from rfl, hfilter, haux2]
      rw [show mkDate y m (((daysInMonth y m : Nat) : Int)
            - (((((daysBeforeYear y + daysBeforeMonth y m) % 7 + (daysInMonth y m - 1)) % 7 : Nat) : Int)
              - (w : Int)) % 7).toNat =
          .ok ⟨y, m, (((daysInMonth y m : Nat) : Int)
            - (((((daysBeforeYear y + daysBeforeMonth y m) % 7 + (daysInMonth y m - 1)) % 7 : Nat) : Int)
              - (w : Int)) % 7).toNat⟩ from by
        unfold mkDate
        rw [if_pos (by refine ⟨hy1, hy2, hm1, hm2, ?_, ?_⟩ <;> omega)]]
      rfl
    · rw [show lastOccurrence y m w = (weekdayDays y m w).getLast? from rfl, hfilter, haux2]
      rfl
  · decide

theorem c7_nth_weekday_of_month_correct_witness :
    nthOccurrence 2026 1 0 1 = some 5 ∧
    nth_weekday_of_month 2026 1 0 (1 : Nat) =
      .ok ((nthOccurrence 2026 1 0 1).map (fun d => (⟨2026, 1, d⟩ : Date))) ∧
    nth_weekday_of_month 2026 11 4 (-1) =
      .ok ((lastOccurrence 2026 11 4).map (fun d => (⟨2026, 11, d⟩ : Date))) ∧
    lastOccurrence 2026 11 4 = some 27 := by
  refine ⟨by decide, ?_, ?_, by decide⟩
  · exact (c7_nth_weekday_of_month_correct.1 2026 1 0 1 (by decide) (by decide) (by decide)
      (by decide) (by decide) (by decide) (by decide)).1
  · exact (c7_nth_weekday_of_month_correct.1 2026 11 4 1 (by decide) (by decide) (by decide)
      (by decide) (by decide) (by decide) (by decide)).2.1
